import Mathlib

/-!
Verification of the GhostRider message normalization and priority
classification pipeline.

The definitions below are a shallow embedding of the Python sources:
  - `src/ghostrider/models.py`      (data model)
  - `src/ghostrider/processor.py`   (classifier and batch processor)
  - `src/ghostrider/platforms/sms.py` (TextBee SMS adapter)

Python floats are embedded as exact rationals (`ℚ`); every score
arithmetic expression appearing in the source uses short decimal
literals, and at every comparison threshold reached by the claims the
IEEE-double results coincide with the exact decimal ones.  Python string
operations are embedded over `List Char` (all relevant content is
ASCII).  Wall-clock readings (`datetime.now()`) are passed in as
explicit parameters, since they are external inputs.
-/

namespace GhostRider

/-! ## Data model (src/ghostrider/models.py) -/

/-- Enum `MessagePlatform`. -/
inductive MessagePlatform
  | slack
  | discord
  | gmail
  | sms
  deriving DecidableEq, Repr

/-- Value of the `str` enum, e.g. `MessagePlatform.SMS.value == "sms"`. -/
def MessagePlatform.value : MessagePlatform → String
  | .slack => "slack"
  | .discord => "discord"
  | .gmail => "gmail"
  | .sms => "sms"

/-- Enum `MessagePriority`. -/
inductive MessagePriority
  | low
  | medium
  | high
  | urgent
  deriving DecidableEq, Repr

/-- Enum `MessageType`. -/
inductive MessageType
  | text
  | image
  | file
  | audio
  | video
  | link
  deriving DecidableEq, Repr

/-- The slice of a Python `datetime` that the core reads: the classifier
only consults `timestamp.hour`. -/
structure DateTime where
  hour : Nat
  deriving DecidableEq, Repr

/-- `MessageAuthor`. -/
structure MessageAuthor where
  id : String
  name : String
  email : Option String := none
  phone : Option String := none
  avatarUrl : Option String := none
  deriving DecidableEq, Repr

/-- `MessageMetadata`; `raw_data` is an opaque provider payload kept for
auditing, embedded as a string-keyed association list. -/
structure MessageMetadata where
  platform : MessagePlatform
  channelId : Option String := none
  channelName : Option String := none
  threadId : Option String := none
  messageId : String
  rawData : List (String × String) := []
  deriving DecidableEq, Repr

/-- `SMSMetadata`. -/
structure SMSMetadata where
  deviceId : String
  phoneNumber : String
  carrier : Option String := none
  simSlot : Option Nat := none
  deriving DecidableEq, Repr

/-- `UnifiedMessage`; `urgency_score` is a Python float embedded as `ℚ`. -/
structure UnifiedMessage where
  id : String
  platform : MessagePlatform
  content : String
  messageType : MessageType := .text
  timestamp : DateTime
  author : MessageAuthor
  priority : MessagePriority := .medium
  urgencyScore : ℚ := 0.5
  contextTags : List String := []
  attachments : List String := []
  mediaUrls : List String := []
  metadata : MessageMetadata
  smsMetadata : Option SMSMetadata := none
  processed : Bool := false
  processingTimestamp : Option DateTime := none
  deriving DecidableEq, Repr

/-- `MessageBatch`. -/
structure MessageBatch where
  messages : List UnifiedMessage
  batchId : String
  platform : MessagePlatform
  timestamp : DateTime
  totalCount : Nat
  deriving DecidableEq, Repr

/-- `MessageProcessingResult`.  The wall-clock `processing_time_ms`
field is not embedded: it is read from an external clock and no claim
constrains it beyond being measured. -/
structure MessageProcessingResult where
  messageId : String
  success : Bool
  priorityAssigned : MessagePriority
  urgencyScore : ℚ
  contextTags : List String
  error : Option String := none
  deriving DecidableEq, Repr

/-! ## String utilities

Python `needle in haystack` (substring test) and `str.lower()`,
embedded over `List Char`.  `String.toLower` from core is avoided only
because its byte-position recursion does not reduce in the kernel; the
`List Char` version below computes the same ASCII lowering. -/

/-- Lowers one character, as Python `str.lower` does on ASCII input. -/
def lowerChar (c : Char) : Char := c.toLower

/-- Lowers a string character by character. -/
def lowerStr (s : String) : String := ⟨s.data.map lowerChar⟩

/-- Substring occurrence over character lists: Python `needle in hay`. -/
def containsSub (hay needle : List Char) : Bool :=
  match hay with
  | [] => needle.isEmpty
  | _ :: rest => needle.isPrefixOf hay || containsSub rest needle

/-- Python `needle in hay` on strings. -/
def strContains (hay needle : String) : Bool :=
  containsSub hay.data needle.data

/-! ## Priority classifier (src/ghostrider/processor.py)

`MessageProcessor.__init__` builds three fixed keyword tables; they are
never mutated, so they are embedded as constants. -/

/-- `self.urgent_keywords`. -/
def urgentKeywords : List String :=
  ["urgent", "asap", "emergency", "critical", "immediate", "help",
   "problem", "issue", "error", "failure", "down"]

/-- `self.high_priority_keywords`. -/
def highPriorityKeywords : List String :=
  ["important", "priority", "deadline", "meeting", "call", "interview",
   "review", "approval", "payment", "invoice"]

/-- `self.low_priority_keywords`. -/
def lowPriorityKeywords : List String :=
  ["fyi", "heads up", "update", "newsletter", "notification", "reminder",
   "weekly", "monthly", "digest"]

/-- `sum(1 for keyword in keywords if keyword in content)`: the number
of keywords of the table occurring as substrings of `content`. -/
def keywordCount (keywords : List String) (content : String) : Nat :=
  (keywords.filter (fun keyword => strContains content keyword)).length

/-- Urgent-keyword count of a message, over its lower-cased content. -/
def urgentCount (message : UnifiedMessage) : Nat :=
  keywordCount urgentKeywords (lowerStr message.content)

/-- High-priority-keyword count of a message. -/
def highCount (message : UnifiedMessage) : Nat :=
  keywordCount highPriorityKeywords (lowerStr message.content)

/-- Low-priority-keyword count of a message. -/
def lowCount (message : UnifiedMessage) : Nat :=
  keywordCount lowPriorityKeywords (lowerStr message.content)

/-- `MessageProcessor._is_known_contact`: the contact-list lookup is a
stub that returns `False` for every phone number. -/
def isKnownContact (_phone : String) : Bool := false

/-- Python truthiness of `message.sms_metadata and
message.sms_metadata.phone_number`. -/
def smsPhoneTruthy (message : UnifiedMessage) : Bool :=
  match message.smsMetadata with
  | some meta => decide (meta.phoneNumber ≠ "")
  | none => false

/-- The phone number consulted by the unknown-contact rule (arbitrary
when the truthiness test fails). -/
def smsPhoneOf (message : UnifiedMessage) : String :=
  match message.smsMetadata with
  | some meta => meta.phoneNumber
  | none => ""

/-- `message.platform.value if hasattr(message.platform, "value") else
str(message.platform)`: with the enum model the attribute is always
present. -/
def platformValue (message : UnifiedMessage) : String :=
  message.platform.value

/-- Score of the keywordless fallback branch of `_classify_priority`
before clamping: baseline 0.5, then the SMS short-message bonus, the
SMS unknown-contact penalty, and the off-hours bonus, applied in source
order. -/
def fallbackRawScore (message : UnifiedMessage) : ℚ :=
  let score : ℚ := 0.5
  let score :=
    if platformValue message = "sms" then
      let score := if message.content.length < 50 then score + 0.1 else score
      if smsPhoneTruthy message ∧ ¬ (isKnownContact (smsPhoneOf message) = true) then
        score - 0.1
      else score
    else score
  if message.timestamp.hour < 8 ∨ message.timestamp.hour > 18 then score + 0.1
  else score

/-- `MessageProcessor._classify_priority`. -/
def classifyPriority (message : UnifiedMessage) : MessagePriority × ℚ :=
  if 0 < urgentCount message then
    (.urgent, min 1 (0.8 + (urgentCount message : ℚ) * 0.1))
  else if 0 < highCount message then
    (.high, min 0.8 (0.6 + (highCount message : ℚ) * 0.1))
  else if 0 < lowCount message then
    (.low, max 0.1 (0.3 - (lowCount message : ℚ) * 0.1))
  else
    let score := max 0 (min 1 (fallbackRawScore message))
    if 0.8 ≤ score then (.urgent, score)
    else if 0.6 ≤ score then (.high, score)
    else if score ≤ 0.3 then (.low, score)
    else (.medium, score)

/-! ## Context-tag extraction (`MessageProcessor._extract_context_tags`)

The two `re.search` calls are embedded as explicit scanners with the
same match semantics (a match exists at some position). -/

/-- Bool test `any(word in content for word in words)`. -/
def anyKeywordIn (content : String) (words : List String) : Bool :=
  words.any fun word => strContains content word

/-- Single-character alternatives of the URL regex body
`[a-zA-Z]|[0-9]|[$-_@.&+]|[!*\(),]` (note `$-_` is a character range). -/
def urlBodyChar (c : Char) : Bool :=
  (decide ('a' ≤ c ∧ c ≤ 'z') || decide ('A' ≤ c ∧ c ≤ 'Z')) ||
  decide ('0' ≤ c ∧ c ≤ '9') ||
  decide ('$' ≤ c ∧ c ≤ '_') ||
  (c == '@' || c == '.' || c == '&' || c == '+') ||
  (c == '!' || c == '*' || c == '\\' || c == '(' || c == ')' || c == ',')

/-- Hexadecimal digit, class `[0-9a-fA-F]`. -/
def isHexDigitChar (c : Char) : Bool :=
  decide ('0' ≤ c ∧ c ≤ '9') || decide ('a' ≤ c ∧ c ≤ 'f') ||
  decide ('A' ≤ c ∧ c ≤ 'F')

/-- Does at least one unit of the one-or-more URL body group match at
the head of `l` (a class character, or a `%hh` escape)? -/
def urlBodyHead (l : List Char) : Bool :=
  match l with
  | [] => false
  | c :: rest =>
    urlBodyChar c ||
      (c == '%' &&
        match rest with
        | a :: b :: _ => isHexDigitChar a && isHexDigitChar b
        | _ => false)

/-- Does the URL regex `http[s]?://(...)+` match starting exactly at the
head of `l`? -/
def urlMatchAt (l : List Char) : Bool :=
  ("https://".data.isPrefixOf l && urlBodyHead (l.drop 8)) ||
  ("http://".data.isPrefixOf l && urlBodyHead (l.drop 7))

/-- Scanner for `re.search` of the URL pattern: a match at any position. -/
def containsUrlAux : List Char → Bool
  | [] => false
  | c :: rest => urlMatchAt (c :: rest) || containsUrlAux rest

/-- `re.search(url-pattern, content) is not None`. -/
def containsUrl (content : String) : Bool :=
  containsUrlAux content.data

/-- Word character of the regex `\b` boundary (`\w`, ASCII content). -/
def isWordChar (c : Char) : Bool := c.isAlphanum || c == '_'

/-- Decimal digit, regex `\d` (ASCII content). -/
def isDigitChar (c : Char) : Bool := decide ('0' ≤ c ∧ c ≤ '9')

/-- Consumes exactly `n` digits, returning the remaining characters. -/
def dropDigits : Nat → List Char → Option (List Char)
  | 0, l => some l
  | _ + 1, [] => none
  | n + 1, c :: rest => if isDigitChar c then dropDigits n rest else none

/-- Both continuations of the optional separator `[-.]?` (consume one
separator, or consume nothing); a match exists iff it exists along one
of the alternatives the regex engine backtracks over. -/
def sepChoices (l : List Char) : List (List Char) :=
  match l with
  | c :: rest => if c == '-' || c == '.' then [rest, l] else [l]
  | [] => [l]

/-- Does `\d{3}[-.]?\d{3}[-.]?\d{4}\b` match starting exactly at the
head of `l`?  The trailing `\b` follows a digit, so it holds iff the
next character is absent or not a word character. -/
def phoneMatchAt (l : List Char) : Bool :=
  match dropDigits 3 l with
  | none => false
  | some r1 =>
    (sepChoices r1).any fun r1' =>
      match dropDigits 3 r1' with
      | none => false
      | some r2 =>
        (sepChoices r2).any fun r2' =>
          match dropDigits 4 r2' with
          | none => false
          | some rest =>
            match rest with
            | [] => true
            | c :: _ => !(isWordChar c)

/-- Scanner for the phone pattern; the leading `\b` precedes a digit, so
it holds iff the previous character is absent or not a word character. -/
def containsPhoneAux (prev : Option Char) : List Char → Bool
  | [] => false
  | c :: rest =>
    ((match prev with
      | none => true
      | some p => !(isWordChar p)) && phoneMatchAt (c :: rest)) ||
    containsPhoneAux (some c) rest

/-- `re.search(phone-pattern, content) is not None`. -/
def containsPhone (content : String) : Bool :=
  containsPhoneAux none content.data

/-- `MessageProcessor._extract_context_tags`, with the source's
append-in-order accumulation. -/
def extractContextTags (message : UnifiedMessage) : List String :=
  let content := lowerStr message.content
  let tags := ["platform:" ++ platformValue message]
  let tags :=
    if anyKeywordIn content ["meeting", "call", "zoom", "teams"] then
      tags ++ ["meeting"] else tags
  let tags :=
    if anyKeywordIn content ["payment", "invoice", "bill", "charge"] then
      tags ++ ["financial"] else tags
  let tags :=
    if anyKeywordIn content ["password", "login", "security", "account"] then
      tags ++ ["security"] else tags
  let tags :=
    if anyKeywordIn content ["delivery", "package", "shipped", "tracking"] then
      tags ++ ["delivery"] else tags
  let tags := if containsUrl content then tags ++ ["contains-link"] else tags
  let tags := if containsPhone content then tags ++ ["contains-phone"] else tags
  let tags :=
    if anyKeywordIn content ["today", "tomorrow", "asap", "urgent"] then
      tags ++ ["time-sensitive"] else tags
  tags

/-- The tag list in the fixed order stated by the spec: platform tag
first, then each conditional tag as its predicate matches.  Written
from the spec's wording, to be compared with `extractContextTags`. -/
def extractContextTagsSpecOrder (message : UnifiedMessage) : List String :=
  let content := lowerStr message.content
  ["platform:" ++ platformValue message] ++
  (if anyKeywordIn content ["meeting", "call", "zoom", "teams"] then
    ["meeting"] else []) ++
  (if anyKeywordIn content ["payment", "invoice", "bill", "charge"] then
    ["financial"] else []) ++
  (if anyKeywordIn content ["password", "login", "security", "account"] then
    ["security"] else []) ++
  (if anyKeywordIn content ["delivery", "package", "shipped", "tracking"] then
    ["delivery"] else []) ++
  (if containsUrl content then ["contains-link"] else []) ++
  (if containsPhone content then ["contains-phone"] else []) ++
  (if anyKeywordIn content ["today", "tomorrow", "asap", "urgent"] then
    ["time-sensitive"] else [])

/-! ## Batch processor (`MessageProcessor.process_batch`)

The loop body wraps `_classify_priority` and `_extract_context_tags` in
`try: ... except Exception as e: ...`.  The step is therefore embedded
as a fallible function (as the repository's own test induces the error
path, by patching `_classify_priority` with a raising mock); the actual
pipeline step `classifyStep` always succeeds.  `datetime.now()` is an
external clock reading, passed in as the `now` parameter. -/

/-- The classification-and-tagging step of the loop body. -/
def classifyStep (message : UnifiedMessage) :
    Except String (MessagePriority × ℚ × List String) :=
  .ok ((classifyPriority message).1, (classifyPriority message).2,
    extractContextTags message)

/-- One iteration of the `process_batch` loop: the (possibly updated)
message, and the emitted result (`none` when the message is skipped). -/
def processOne (step : UnifiedMessage → Except String (MessagePriority × ℚ × List String))
    (now : DateTime) (message : UnifiedMessage) :
    UnifiedMessage × Option MessageProcessingResult :=
  if message.processed then (message, none)
  else
    match step message with
    | .ok (priority, urgencyScore, contextTags) =>
      ({ message with
          priority := priority
          urgencyScore := urgencyScore
          contextTags := contextTags
          processed := true
          processingTimestamp := some now },
       some { messageId := message.id, success := true,
              priorityAssigned := priority, urgencyScore := urgencyScore,
              contextTags := contextTags, error := none })
    | .error e =>
      (message,
       some { messageId := message.id, success := false,
              priorityAssigned := .medium, urgencyScore := 0.5,
              contextTags := [], error := some e })

/-- `process_batch` over an arbitrary fallible step: the batch's
messages after the in-place mutations, and the result list. -/
def processBatchWith
    (step : UnifiedMessage → Except String (MessagePriority × ℚ × List String))
    (now : DateTime) (batch : MessageBatch) :
    List UnifiedMessage × List MessageProcessingResult :=
  (batch.messages.map fun message => (processOne step now message).1,
   batch.messages.filterMap fun message => (processOne step now message).2)

/-- `MessageProcessor.process_batch` with the real classifier step. -/
def processBatch (now : DateTime) (batch : MessageBatch) :
    List UnifiedMessage × List MessageProcessingResult :=
  processBatchWith classifyStep now batch

/-! ## TextBee SMS adapter (src/ghostrider/platforms/sms.py)

Network I/O is an external collaborator: a call's provider response is
passed in as an `Except` value (`.error` for a raised
`requests.exceptions.RequestException`, `.ok` for the parsed `data`
field).  The adapter state is its seen-set of provider message ids. -/

/-- `TextBeeConfig`. -/
structure TextBeeConfig where
  apiKey : String
  deviceId : String
  baseUrl : String := "https://api.textbee.dev/api/v1"
  pollingInterval : Nat := 10
  deriving DecidableEq, Repr

/-- One record of the provider response's `data` list, with the fields
`_convert_to_unified_message` reads; `receivedAt` is carried already
parsed (timestamp-string parsing and its `now()` fallback are I/O
glue).  `rawId` is the provider-native `_id`. -/
structure TextBeeRawSms where
  rawId : String
  message : String
  sender : String
  receivedAt : DateTime
  deriving DecidableEq, Repr

/-- Mutable adapter state: `self.processed_message_ids` (a set of
provider ids, embedded as a list with membership semantics). -/
structure SMSPlatformState where
  config : TextBeeConfig
  processedMessageIds : List String := []
  deriving DecidableEq, Repr

/-- `TextBeeSMSPlatform._convert_to_unified_message`. -/
def convertToUnifiedMessage (config : TextBeeConfig) (smsData : TextBeeRawSms) :
    UnifiedMessage :=
  { id := "sms_" ++ smsData.rawId
    platform := .sms
    content := smsData.message
    messageType := .text
    timestamp := smsData.receivedAt
    author := { id := smsData.sender, name := smsData.sender,
                phone := some smsData.sender }
    metadata := { platform := .sms, messageId := smsData.rawId,
                  rawData := [("_id", smsData.rawId),
                              ("message", smsData.message),
                              ("sender", smsData.sender)] }
    smsMetadata := some { deviceId := config.deviceId,
                          phoneNumber := smsData.sender } }

/-- The per-message loop of `receive_messages`: skip ids already in the
seen-set, otherwise convert, emit, and add the id to the seen-set.
Conversion is total in the embedding, so the inner `except: continue`
branch is unreachable. -/
def receiveLoop (config : TextBeeConfig) (seen : List String) :
    List TextBeeRawSms → List String × List UnifiedMessage
  | [] => (seen, [])
  | smsData :: rest =>
    if smsData.rawId ∈ seen then receiveLoop config seen rest
    else
      let next := receiveLoop config (smsData.rawId :: seen) rest
      (next.1, convertToUnifiedMessage config smsData :: next.2)

/-- `TextBeeSMSPlatform.receive_messages`: on a provider/network error
the exception is swallowed and an empty list returned; otherwise the
payload is deduplicated against the seen-set. -/
def receiveMessages (st : SMSPlatformState)
    (response : Except String (List TextBeeRawSms)) :
    SMSPlatformState × List UnifiedMessage :=
  match response with
  | .error _ => (st, [])
  | .ok msgs =>
    let r := receiveLoop st.config st.processedMessageIds msgs
    ({ st with processedMessageIds := r.1 }, r.2)

/-- `TextBeeSMSPlatform.get_message_history`: delegates to
`receive_messages`, ignoring both `limit` and `since`. -/
def getMessageHistory (st : SMSPlatformState) (_limit : Nat)
    (_since : Option DateTime) (response : Except String (List TextBeeRawSms)) :
    SMSPlatformState × List UnifiedMessage :=
  receiveMessages st response

/-! ## Concrete inputs for examples and witnesses -/

/-- Shared metadata for example messages. -/
def exampleMetadata : MessageMetadata := { platform := .sms, messageId := "m1" }

/-- Shared author for example messages. -/
def exampleAuthor : MessageAuthor := { id := "a", name := "a" }

/-- Example 1's content (repository test `test_classify_priority_urgent`). -/
def msgUrgent : UnifiedMessage :=
  { id := "t1", platform := .sms,
    content := "URGENT: Server is down! Need help ASAP!",
    timestamp := { hour := 12 }, author := exampleAuthor,
    metadata := exampleMetadata }

/-- Example 2's content (repository test `test_classify_priority_high`). -/
def msgHigh : UnifiedMessage :=
  { id := "t2", platform := .sms,
    content := "Important meeting reminder for tomorrow",
    timestamp := { hour := 12 }, author := exampleAuthor,
    metadata := exampleMetadata }

/-- A keywordless short SMS from an unknown number at 23:00 (Example 5). -/
def msgPlain : UnifiedMessage :=
  { id := "p1", platform := .sms, content := "hello there",
    timestamp := { hour := 23 }, author := exampleAuthor,
    metadata := exampleMetadata,
    smsMetadata := some { deviceId := "dev", phoneNumber := "+15551234567" } }

/-- An already-processed message. -/
def msgDone : UnifiedMessage := { msgPlain with processed := true }

/-- A fixed clock reading for witnesses. -/
def nowW : DateTime := { hour := 12 }

/-- Singleton batch around `msgPlain`. -/
def batchPlain : MessageBatch :=
  { messages := [msgPlain], batchId := "b1", platform := .sms,
    timestamp := nowW, totalCount := 1 }

/-- Batch whose only message is already processed. -/
def batchDone : MessageBatch :=
  { messages := [msgDone], batchId := "b2", platform := .sms,
    timestamp := nowW, totalCount := 1 }

/-- The success result `process_batch` emits for `msgPlain`. -/
def resultPlain : MessageProcessingResult :=
  { messageId := msgPlain.id, success := true,
    priorityAssigned := (classifyPriority msgPlain).1,
    urgencyScore := (classifyPriority msgPlain).2,
    contextTags := extractContextTags msgPlain, error := none }

/-- Three fresh messages for the batch-isolation witness. -/
def msgW1 : UnifiedMessage := { msgPlain with id := "w1" }

/-- Second of the three (the one whose step fails). -/
def msgW2 : UnifiedMessage := { msgPlain with id := "w2" }

/-- Third of the three. -/
def msgW3 : UnifiedMessage := { msgPlain with id := "w3" }

/-- A step that raises exactly on `msgW2`, as the repository test does
with a mock. -/
def stepW (message : UnifiedMessage) :
    Except String (MessagePriority × ℚ × List String) :=
  if message.id = "w2" then .error "Test error" else classifyStep message

/-- Adapter config for SMS witnesses. -/
def cfgW : TextBeeConfig := { apiKey := "k", deviceId := "dev" }

/-- Provider record with id `a`. -/
def rawA : TextBeeRawSms :=
  { rawId := "a", message := "hi", sender := "+15550001111",
    receivedAt := { hour := 9 } }

/-- Provider record with id `b`. -/
def rawB : TextBeeRawSms :=
  { rawId := "b", message := "yo", sender := "+15550002222",
    receivedAt := { hour := 10 } }

/-- Adapter state whose seen-set already holds id `a`. -/
def stSeenA : SMSPlatformState :=
  { config := cfgW, processedMessageIds := ["a"] }

/-- Adapter state with an empty seen-set. -/
def stFresh : SMSPlatformState := { config := cfgW }

/-- Batch of three fresh messages, the second of which `stepW` fails on. -/
def batchW : MessageBatch :=
  { messages := [msgW1, msgW2, msgW3], batchId := "b3", platform := .sms,
    timestamp := nowW, totalCount := 3 }

/-! ## Theorems -/

set_option maxHeartbeats 4000000

/-- Bounds of every classifier branch, shared by the parts of the
unit-interval invariant. -/
theorem classifyPriority_snd_bounds (message : UnifiedMessage) :
    0 ≤ (classifyPriority message).2 ∧ (classifyPriority message).2 ≤ 1 := by
  unfold classifyPriority
  by_cases h1 : 0 < urgentCount message
  · rw [if_pos h1]
    exact ⟨le_min (by norm_num) (by positivity), min_le_left _ _⟩
  rw [if_neg h1]
  by_cases h2 : 0 < highCount message
  · rw [if_pos h2]
    exact ⟨le_min (by norm_num) (by positivity), (min_le_left _ _).trans (by norm_num)⟩
  rw [if_neg h2]
  by_cases h3 : 0 < lowCount message
  · rw [if_pos h3]
    refine ⟨le_trans (by norm_num) (le_max_left _ _), max_le (by norm_num) ?_⟩
    have h : (0:ℚ) ≤ (lowCount message : ℚ) := by positivity
    linarith
  rw [if_neg h3]
  have hb : (0:ℚ) ≤ 0 ⊔ 1 ⊓ fallbackRawScore message := le_max_left _ _
  have hb' : (0:ℚ) ⊔ 1 ⊓ fallbackRawScore message ≤ 1 :=
    max_le (by norm_num) (min_le_left _ _)
  dsimp only
  split_ifs <;> exact ⟨hb, hb'⟩

/-- C1: for every message the urgency score returned by
`classifyPriority` lies in `[0, 1]`, regardless of keyword counts; the
same holds for the score of every result `processBatch` emits and for
the score `processBatch` stores on a message it processes. -/
theorem c1_urgency_score_unit_interval (message m : UnifiedMessage)
    (now : DateTime) (batch : MessageBatch) :
    (0 ≤ (classifyPriority message).2 ∧ (classifyPriority message).2 ≤ 1) ∧
    (∀ r ∈ (processBatch now batch).2,
      0 ≤ r.urgencyScore ∧ r.urgencyScore ≤ 1) ∧
    (m.processed = false →
      0 ≤ (processOne classifyStep now m).1.urgencyScore ∧
      (processOne classifyStep now m).1.urgencyScore ≤ 1) := by
  refine ⟨classifyPriority_snd_bounds message, ?_, ?_⟩
  · intro r hr
    rw [processBatch, processBatchWith] at hr
    obtain ⟨m', _, heq⟩ := List.mem_filterMap.mp hr
    by_cases hp : m'.processed
    · rw [processOne, if_pos hp] at heq
      simp at heq
    · rw [processOne, if_neg hp] at heq
      dsimp only [classifyStep] at heq
      obtain rfl := (Option.some_inj.mp heq).symm
      exact classifyPriority_snd_bounds m'
  · intro h
    rw [processOne, if_neg (by simp [h])]
    dsimp only [classifyStep]
    exact classifyPriority_snd_bounds m

/-- Witness for C1 at `msgPlain` and its singleton batch. -/
theorem c1_urgency_score_unit_interval_witness :
    (0 ≤ (classifyPriority msgPlain).2 ∧ (classifyPriority msgPlain).2 ≤ 1) ∧
    (0 ≤ resultPlain.urgencyScore ∧ resultPlain.urgencyScore ≤ 1) ∧
    (0 ≤ (processOne classifyStep nowW msgPlain).1.urgencyScore ∧
      (processOne classifyStep nowW msgPlain).1.urgencyScore ≤ 1) := by
  obtain ⟨h1, h2, h3⟩ :=
    c1_urgency_score_unit_interval msgPlain msgPlain nowW batchPlain
  exact ⟨h1, h2 resultPlain (List.mem_singleton_self _), h3 rfl⟩

/-- C2: any message whose lower-cased content contains at least one
urgent keyword is classified URGENT with score
`min 1 (0.8 + 0.1 * count)`, regardless of any co-occurring high- or
low-priority keywords (the urgent check short-circuits first). -/
theorem c2_urgent_keywords_short_circuit (message : UnifiedMessage)
    (h : 0 < urgentCount message) :
    classifyPriority message =
      (.urgent, min 1 (0.8 + (urgentCount message : ℚ) * 0.1)) := by
  unfold classifyPriority
  rw [if_pos h]

/-- Witness for C2 at Example 1's content (four urgent keyword hits:
urgent, help, down, asap). -/
theorem c2_urgent_keywords_short_circuit_witness :
    0 < urgentCount msgUrgent ∧
    classifyPriority msgUrgent =
      (.urgent, min 1 (0.8 + (urgentCount msgUrgent : ℚ) * 0.1)) :=
  ⟨by decide, c2_urgent_keywords_short_circuit msgUrgent (by decide)⟩

/-- C3 (code bug): on "Important meeting reminder for tomorrow" two
high-priority keywords match (important, meeting), so the code returns
urgency score exactly `min 0.8 (0.6 + 2 * 0.1) = 0.8`, violating the
strict bound `urgency_score < 0.8` asserted by the spec's Example 2 and
by the repository's own test `test_classify_priority_high`; the
priority is HIGH and the tags do include "meeting" and
"time-sensitive" as claimed. -/
theorem c3_example2_evaluation :
    classifyPriority msgHigh = (.high, 0.8) ∧
    ¬ (classifyPriority msgHigh).2 < 0.8 ∧
    "meeting" ∈ extractContextTags msgHigh ∧
    "time-sensitive" ∈ extractContextTags msgHigh := by
  have h0 : urgentCount msgHigh = 0 := by decide
  have h2 : highCount msgHigh = 2 := by decide
  have hc : classifyPriority msgHigh = (.high, 0.8) := by
    simp only [classifyPriority, h0, h2]
    norm_num
  refine ⟨hc, by rw [hc]; norm_num, by decide, by decide⟩

/-- C4: an SMS message matching no keyword table, shorter than 50
characters, carrying a non-empty phone number, with timestamp hour 23,
scores 0.5 + 0.1 − 0.1 + 0.1 = 0.6 (the contact-lookup stub treats
every number as unknown) and is classified HIGH. -/
theorem c4_sms_offhours_unknown_contact (message : UnifiedMessage)
    (meta : SMSMetadata) (hplat : message.platform = .sms)
    (hu : urgentCount message = 0) (hh : highCount message = 0)
    (hl : lowCount message = 0) (hlen : message.content.length < 50)
    (hmeta : message.smsMetadata = some meta) (hphone : meta.phoneNumber ≠ "")
    (hhour : message.timestamp.hour = 23) :
    classifyPriority message = (.high, 0.6) := by
  have hraw : fallbackRawScore message = 0.6 := by
    unfold fallbackRawScore
    dsimp only
    rw [show platformValue message = "sms" by rw [platformValue, hplat]; rfl]
    simp only [smsPhoneTruthy, hmeta, isKnownContact, hhour, hlen]
    rw [if_pos (show decide (meta.phoneNumber ≠ "") = true ∧ ¬false = true from
      ⟨by simp [hphone], by simp⟩)]
    norm_num
  unfold classifyPriority
  simp only [hu, hh, hl, lt_self_iff_false, if_false, hraw]
  norm_num

/-- Witness for C4 at `msgPlain` (keywordless 11-character SMS from an
unknown number at 23:00). -/
theorem c4_sms_offhours_unknown_contact_witness :
    classifyPriority msgPlain = (.high, 0.6) :=
  c4_sms_offhours_unknown_contact msgPlain
    { deviceId := "dev", phoneNumber := "+15551234567" }
    rfl (by decide) (by decide) (by decide) (by decide) rfl (by decide) rfl

/-- C5: in a three-message batch whose second message's
classification step raises, `process_batch` still emits three results;
the second is a failure result with MEDIUM priority, score 0.5, empty
tags and a non-null error, the failed message is left unchanged (in
particular unprocessed), and the first and third messages succeed.
Exceptions are modelled by quantifying over a fallible step, exactly
as the repository's own test induces the error path by patching
`_classify_priority` with a raising mock. -/
theorem c5_per_item_error_isolation
    (step : UnifiedMessage → Except String (MessagePriority × ℚ × List String))
    (now : DateTime) (m1 m2 m3 : UnifiedMessage)
    (o1 o3 : MessagePriority × ℚ × List String) (e : String)
    (bid : String) (plat : MessagePlatform) (ts : DateTime) (n : Nat)
    (hp1 : m1.processed = false) (hp2 : m2.processed = false)
    (hp3 : m3.processed = false)
    (hs1 : step m1 = .ok o1) (hs2 : step m2 = .error e)
    (hs3 : step m3 = .ok o3) :
    (processBatchWith step now ⟨[m1, m2, m3], bid, plat, ts, n⟩).2.length = 3 ∧
    (processBatchWith step now ⟨[m1, m2, m3], bid, plat, ts, n⟩).2.get? 1 =
      some { messageId := m2.id, success := false, priorityAssigned := .medium,
             urgencyScore := 0.5, contextTags := [], error := some e } ∧
    ((processBatchWith step now ⟨[m1, m2, m3], bid, plat, ts, n⟩).2.get? 0).map
      (fun r => r.success) = some true ∧
    ((processBatchWith step now ⟨[m1, m2, m3], bid, plat, ts, n⟩).2.get? 2).map
      (fun r => r.success) = some true ∧
    (processBatchWith step now ⟨[m1, m2, m3], bid, plat, ts, n⟩).1.get? 1 =
      some m2 := by
  obtain ⟨p1, s1, t1⟩ := o1
  obtain ⟨p3, s3, t3⟩ := o3
  simp [processBatchWith, processOne, hp1, hp2, hp3, hs1, hs2, hs3]

/-- Witness for C5: `stepW` raises exactly on the middle message of
`batchW`. -/
theorem c5_per_item_error_isolation_witness :
    (processBatchWith stepW nowW batchW).2.length = 3 ∧
    (processBatchWith stepW nowW batchW).2.get? 1 =
      some { messageId := msgW2.id, success := false, priorityAssigned := .medium,
             urgencyScore := 0.5, contextTags := [], error := some "Test error" } ∧
    ((processBatchWith stepW nowW batchW).2.get? 0).map
      (fun r => r.success) = some true ∧
    ((processBatchWith stepW nowW batchW).2.get? 2).map
      (fun r => r.success) = some true ∧
    (processBatchWith stepW nowW batchW).1.get? 1 = some msgW2 :=
  c5_per_item_error_isolation stepW nowW msgW1 msgW2 msgW3 _ _
    "Test error" "b3" .sms nowW 3 rfl rfl rfl rfl rfl rfl

/-- C6: `process_batch` on a batch all of whose messages are already
processed returns an empty result list and leaves every message
unchanged; per message, the loop body skips a processed message,
emitting no result and performing no mutation. -/
theorem c6_processed_skip_law (now : DateTime) (batch : MessageBatch)
    (h : ∀ m ∈ batch.messages, m.processed = true) :
    processBatch now batch = (batch.messages, []) ∧
    ∀ m ∈ batch.messages, processOne classifyStep now m = (m, none) := by
  have hone : ∀ m ∈ batch.messages,
      processOne classifyStep now m = (m, none) := by
    intro m hm
    unfold processOne
    rw [if_pos (h m hm)]
  refine ⟨?_, hone⟩
  unfold processBatch processBatchWith
  simp only [Prod.mk.injEq]
  constructor
  · calc batch.messages.map (fun message => (processOne classifyStep now message).1)
        = batch.messages.map id := by
          apply List.map_congr_left
          intro m hm
          rw [hone m hm]
          rfl
      _ = batch.messages := List.map_id _
  · rw [List.filterMap_eq_nil_iff]
    intro m hm
    rw [hone m hm]

/-- Witness for C6 at the singleton batch around `msgDone`. -/
theorem c6_processed_skip_law_witness :
    processBatch nowW batchDone = (batchDone.messages, []) ∧
    processOne classifyStep nowW msgDone = (msgDone, none) := by
  obtain ⟨h1, h2⟩ := c6_processed_skip_law nowW batchDone
    (by intro m hm; rw [show m = msgDone from List.mem_singleton.mp hm]; rfl)
  exact ⟨h1, h2 msgDone (List.mem_singleton_self _)⟩

/-- Seen-set monotonicity of the receive loop. -/
theorem receiveLoop_seen_mono (config : TextBeeConfig)
    (l : List TextBeeRawSms) :
    ∀ seen : List String, seen ⊆ (receiveLoop config seen l).1 := by
  induction l with
  | nil => intro seen; exact fun x hx => hx
  | cons d rest ih =>
    intro seen
    unfold receiveLoop
    by_cases hd : d.rawId ∈ seen
    · rw [if_pos hd]
      exact ih seen
    · rw [if_neg hd]
      exact (List.subset_cons_self _ _).trans (ih _)

/-- After the receive loop, every processed id of the payload is in the
seen-set. -/
theorem receiveLoop_ids_seen (config : TextBeeConfig)
    (l : List TextBeeRawSms) :
    ∀ seen, ∀ d ∈ l, d.rawId ∈ (receiveLoop config seen l).1 := by
  induction l with
  | nil => simp
  | cons d rest ih =>
    intro seen d' hd'
    unfold receiveLoop
    rcases List.mem_cons.mp hd' with h | h
    · subst h
      by_cases hd : d'.rawId ∈ seen
      · rw [if_pos hd]
        exact receiveLoop_seen_mono config rest seen hd
      · rw [if_neg hd]
        exact receiveLoop_seen_mono config rest _ (List.mem_cons_self _ _)
    · by_cases hd : d.rawId ∈ seen
      · rw [if_pos hd]
        exact ih seen d' h
      · rw [if_neg hd]
        exact ih _ d' h

/-- The receive loop yields nothing when every payload id was already
seen. -/
theorem receiveLoop_all_seen (config : TextBeeConfig)
    (l : List TextBeeRawSms) :
    ∀ seen, (∀ d ∈ l, d.rawId ∈ seen) → receiveLoop config seen l = (seen, []) := by
  induction l with
  | nil => intro seen _; rfl
  | cons d rest ih =>
    intro seen h
    unfold receiveLoop
    rw [if_pos (h d (List.mem_cons_self _ _))]
    exact ih seen fun d' hd' => h d' (List.mem_cons_of_mem _ hd')

/-- Every message the receive loop emits carries a provider id that was
not in the seen-set the loop started from. -/
theorem receiveLoop_out_fresh (config : TextBeeConfig)
    (l : List TextBeeRawSms) :
    ∀ seen, ∀ m ∈ (receiveLoop config seen l).2,
      m.metadata.messageId ∉ seen := by
  induction l with
  | nil =>
    intro seen m hm
    simp [receiveLoop] at hm
  | cons d rest ih =>
    intro seen m hm
    unfold receiveLoop at hm
    by_cases hd : d.rawId ∈ seen
    · rw [if_pos hd] at hm
      exact ih seen m hm
    · rw [if_neg hd] at hm
      rcases List.mem_cons.mp hm with h | h
      · subst h
        simpa [convertToUnifiedMessage] using hd
      · intro hmem
        exact ih _ m h (List.mem_cons_of_mem _ hmem)

/-- C7: `receive_messages` swallows provider errors into an empty
result; a second call with the same provider payload yields an empty
list (every id went into the seen-set); and no emitted message carries
a provider id that was already in the seen-set. -/
theorem c7_dedup_and_error_containment (st : SMSPlatformState) (e : String)
    (payload : List TextBeeRawSms) :
    receiveMessages st (.error e) = (st, []) ∧
    receiveMessages (receiveMessages st (.ok payload)).1 (.ok payload) =
      ((receiveMessages st (.ok payload)).1, []) ∧
    ∀ m ∈ (receiveMessages st (.ok payload)).2,
      m.metadata.messageId ∉ st.processedMessageIds := by
  refine ⟨rfl, ?_, ?_⟩
  · unfold receiveMessages
    dsimp only
    rw [receiveLoop_all_seen st.config payload _
      (receiveLoop_ids_seen st.config payload st.processedMessageIds)]
  · exact receiveLoop_out_fresh st.config payload st.processedMessageIds

/-- Witness for C7 at a seen-set already holding id `a` and a payload
with ids `a` and `b`. -/
theorem c7_dedup_and_error_containment_witness :
    receiveMessages stSeenA (.error "boom") = (stSeenA, []) ∧
    receiveMessages (receiveMessages stSeenA (.ok [rawA, rawB])).1
        (.ok [rawA, rawB]) =
      ((receiveMessages stSeenA (.ok [rawA, rawB])).1, []) ∧
    (convertToUnifiedMessage cfgW rawB).metadata.messageId ∉
      stSeenA.processedMessageIds := by
  obtain ⟨h1, h2, h3⟩ :=
    c7_dedup_and_error_containment stSeenA "boom" [rawA, rawB]
  exact ⟨h1, h2, h3 _ (List.mem_singleton_self _)⟩

/-- C8 (code bug): `get_message_history` ignores both `limit` and
`since`, delegating to `receive_messages`: with `limit = 1` and two
fresh provider messages it returns 2 messages, more than `limit`. -/
theorem c8_history_ignores_limit_and_since :
    (∀ (limit : Nat) (since : Option DateTime)
        (response : Except String (List TextBeeRawSms)),
      getMessageHistory stFresh limit since response =
        receiveMessages stFresh response) ∧
    (getMessageHistory stFresh 1 none (.ok [rawA, rawB])).2.length = 2 := by
  refine ⟨fun _ _ _ => rfl, ?_⟩
  decide

/-- C9: `extractContextTags` is a pure function of the message, so two
calls on the same unmutated message agree definitionally; moreover the
tag list is exactly the fixed order the spec states (platform tag
first, then meeting, financial, security, delivery, contains-link,
contains-phone, time-sensitive as their predicates match). -/
theorem c9_extract_tags_deterministic_fixed_order (message : UnifiedMessage) :
    extractContextTags message = extractContextTagsSpecOrder message := by
  unfold extractContextTags extractContextTagsSpecOrder
  dsimp only
  split_ifs <;> simp

/-- C10: when no keyword table matches, the fallback score before
clamping always lies in `[0.4, 0.7]` (base 0.5, at most +0.1 short-SMS
and +0.1 off-hours, at most −0.1 unknown-contact), the clamp to
`[0, 1]` is the identity on it, and the fallback branch only ever
returns MEDIUM or HIGH — its URGENT and LOW outcomes are unreachable. -/
theorem c10_fallback_score_range (message : UnifiedMessage)
    (hu : urgentCount message = 0) (hh : highCount message = 0)
    (hl : lowCount message = 0) :
    (0.4 ≤ fallbackRawScore message ∧ fallbackRawScore message ≤ 0.7) ∧
    max 0 (min 1 (fallbackRawScore message)) = fallbackRawScore message ∧
    ((classifyPriority message).1 = .medium ∨
      (classifyPriority message).1 = .high) := by
  have hb : 0.4 ≤ fallbackRawScore message ∧ fallbackRawScore message ≤ 0.7 := by
    unfold fallbackRawScore
    dsimp only
    split_ifs <;> constructor <;> norm_num
  have h1 : min 1 (fallbackRawScore message) = fallbackRawScore message :=
    min_eq_right (by linarith [hb.2])
  have h2 : max 0 (fallbackRawScore message) = fallbackRawScore message :=
    max_eq_right (by linarith [hb.1])
  refine ⟨hb, by rw [h1, h2], ?_⟩
  unfold classifyPriority
  simp only [hu, hh, hl, lt_self_iff_false, if_false, h1, h2]
  split_ifs with hA hB hC
  · exfalso; linarith [hb.2]
  · exact Or.inr rfl
  · exfalso; linarith [hb.1]
  · exact Or.inl rfl

/-- Witness for C10 at the keywordless `msgPlain`. -/
theorem c10_fallback_score_range_witness :
    (0.4 ≤ fallbackRawScore msgPlain ∧ fallbackRawScore msgPlain ≤ 0.7) ∧
    max 0 (min 1 (fallbackRawScore msgPlain)) = fallbackRawScore msgPlain ∧
    ((classifyPriority msgPlain).1 = .medium ∨
      (classifyPriority msgPlain).1 = .high) :=
  c10_fallback_score_range msgPlain (by decide) (by decide) (by decide)

end GhostRider
